import Mathlib

/-!
Shallow embedding of the OpenMP runtime visualizer tool
(src/runtime_visualizer_utils.h and src/visualizer_tool.c).

The process environment is modelled as a map from variable names to
optionally-present values; C doubles are modelled as exact rationals;
printf output is modelled as the list of lines a call emits, and the
internal calls to get_timestamp / getenv are counted explicitly so that
"performs zero timestamp queries" is a statement about the model.
-/

namespace OmpViz

/-- The process environment, as seen by getenv: `none` means the variable
is absent, `some v` that it is present with value `v`. -/
abbrev Env := String → Option String

/-- `check_ompt_loaded` (runtime_visualizer_utils.h, lines 15-24): the value
stored into the global `ompt_loaded`, namely whether
`getenv("OMP_TOOL_LIBRARIES")` returned non-NULL. -/
def check_ompt_loaded (env : Env) : Bool :=
  (env "OMP_TOOL_LIBRARIES").isSome

/-- A `struct timespec` as filled in by `clock_gettime`. -/
structure Timespec where
  tv_sec : ℕ
  tv_nsec : ℕ
deriving DecidableEq

/-- A timespec is well formed when its nanosecond field is below one second,
as `clock_gettime` guarantees. -/
def Timespec.valid (t : Timespec) : Prop := t.tv_nsec < 1000000000

/-- Ordering of raw clock readings: the monotonic clock never goes backwards,
so successive readings satisfy this relation. -/
def clockLe (a b : Timespec) : Prop :=
  a.tv_sec < b.tv_sec ∨ (a.tv_sec = b.tv_sec ∧ a.tv_nsec ≤ b.tv_nsec)

instance (a b : Timespec) : Decidable (clockLe a b) := by
  unfold clockLe; infer_instance

/-- `get_timestamp` (runtime_visualizer_utils.h, lines 26-30):
`ts.tv_sec * 1000000.0 + ts.tv_nsec / 1000.0`, microseconds.  The C double
arithmetic is modelled exactly over ℚ (rounding a double is monotone, so
order facts proved here survive the float idealisation). -/
def get_timestamp (ts : Timespec) : ℚ :=
  ts.tv_sec * 1000000 + ts.tv_nsec / 1000

/-- Decimal formatting of a nonnegative rational with three digits after the
point, modelling printf "%.3f" (round to nearest, half up; the half-even
tie-break of IEEE doubles is not distinguishable in any property below).
All timestamps in the program are nonnegative. -/
def pad3 (n : ℕ) : String :=
  if n < 10 then "00" ++ toString n
  else if n < 100 then "0" ++ toString n
  else toString n

/-- Render `q ≥ 0` as printf "%.3f" does: integer part, a point, and three
fractional digits. -/
def fmt3 (q : ℚ) : String :=
  let n : ℕ := (⌊q * 1000 + 1 / 2⌋).toNat
  toString (n / 1000) ++ "." ++ pad3 (n % 1000)

/-- The two file-scope globals of runtime_visualizer_utils.h:
`ompt_loaded` (initially false) and `first_call` (initially true). -/
structure UtilsState where
  ompt_loaded : Bool
  first_call : Bool
deriving DecidableEq

/-- The globals at program start. -/
def initState : UtilsState := { ompt_loaded := false, first_call := true }

/-- Observable effect of one call into the utility layer: the lines printed,
how many times `get_timestamp` was called, how many times
`check_ompt_loaded` (the getenv inspection) ran, and the globals after. -/
structure EmitOut where
  lines : List String
  tsQueries : ℕ
  envChecks : ℕ
  state : UtilsState
deriving DecidableEq

/-- The line printed by `ompt_annotate` (utils header, lines 47-48):
`"[OMPT_annotation] Thread %d Annotation at %.3f ms: %s"` applied to the
thread id, the microsecond timestamp divided by 1000, and the label. -/
def annotateLine (tid : ℤ) (ts : ℚ) (ann : String) : String :=
  "[OMPT_annotation] Thread " ++ toString tid ++ " Annotation at " ++
    fmt3 (ts / 1000) ++ " ms: " ++ ann

/-- `ompt_annotate` (utils header, lines 32-49).  On the first call it runs
`check_ompt_loaded` and clears `first_call`; if `ompt_loaded` is then false
it returns silently; otherwise it reads the clock, reads the thread id and
prints one line.  `ts` is the value `get_timestamp` would return and `tid`
the value `omp_get_thread_num` would return at this call. -/
def ompt_annotate (env : Env) (ts : ℚ) (tid : ℤ) (ann : String)
    (s : UtilsState) : EmitOut :=
  let s1 : UtilsState :=
    if s.first_call then { ompt_loaded := check_ompt_loaded env, first_call := false }
    else s
  let checks : ℕ := if s.first_call then 1 else 0
  if s1.ompt_loaded = false then
    { lines := [], tsQueries := 0, envChecks := checks, state := s1 }
  else
    { lines := [annotateLine tid ts ann], tsQueries := 1, envChecks := checks,
      state := s1 }

/-- `ompt_mark_roi_start` (utils header, lines 51-53). -/
def ompt_mark_roi_start (env : Env) (ts : ℚ) (tid : ℤ) (s : UtilsState) : EmitOut :=
  ompt_annotate env ts tid "ROI_START" s

/-- `ompt_mark_roi_end` (utils header, lines 55-57). -/
def ompt_mark_roi_end (env : Env) (ts : ℚ) (tid : ℤ) (s : UtilsState) : EmitOut :=
  ompt_annotate env ts tid "ROI_END" s

/-- Observable effect of one lifecycle callback handler: the lines it prints
and the number of `get_timestamp` calls it performs.  The handlers in
visualizer_tool.c read no global state and mutate none. -/
structure HandlerOut where
  lines : List String
  tsQueries : ℕ
deriving DecidableEq

/-! Discrete kind values from the OMPT interface (omp-tools.h, an external
contract of the host runtime, not part of this repository): the
`ompt_work_t`, `ompt_scope_endpoint_t` and `ompt_sync_region_t`
enumerations, represented by their integer values. -/

def ompt_work_loop : ℕ := 1
def ompt_work_sections : ℕ := 2
def ompt_work_single_executor : ℕ := 3
def ompt_work_single_other : ℕ := 4
def ompt_work_workshare : ℕ := 5
def ompt_work_distribute : ℕ := 6
def ompt_work_taskloop : ℕ := 7

def ompt_scope_begin : ℕ := 1
def ompt_scope_end : ℕ := 2

def ompt_sync_region_barrier : ℕ := 1
def ompt_sync_region_barrier_implicit : ℕ := 2
def ompt_sync_region_barrier_explicit : ℕ := 3
def ompt_sync_region_barrier_implementation : ℕ := 4
def ompt_sync_region_taskwait : ℕ := 5
def ompt_sync_region_taskgroup : ℕ := 6
def ompt_sync_region_reduction : ℕ := 7

/-- The line printed by `on_ompt_callback_parallel_begin`
(visualizer_tool.c, lines 33-34). -/
def parallel_begin_line (tid : ℤ) (ts : ℚ) (req : ℕ) : String :=
  "[OMPT] Thread " ++ toString tid ++ " PARALLEL BEGIN at " ++
    fmt3 (ts / 1000) ++ " ms (requested threads: " ++ toString req ++ ")"

/-- `on_ompt_callback_parallel_begin` (visualizer_tool.c, lines 22-35):
reads the clock, the thread id, and prints one line; it consults no global
state. -/
def on_ompt_callback_parallel_begin (ts : ℚ) (tid : ℤ) (req : ℕ) : HandlerOut :=
  { lines := [parallel_begin_line tid ts req], tsQueries := 1 }

/-- The line printed by `on_ompt_callback_parallel_end`
(visualizer_tool.c, lines 54-55). -/
def parallel_end_line (tid : ℤ) (ts : ℚ) : String :=
  "[OMPT] Thread " ++ toString tid ++ " PARALLEL END at " ++
    fmt3 (ts / 1000) ++ " ms"

/-- `on_ompt_callback_parallel_end` (visualizer_tool.c, lines 45-56). -/
def on_ompt_callback_parallel_end (ts : ℚ) (tid : ℤ) : HandlerOut :=
  { lines := [parallel_end_line tid ts], tsQueries := 1 }

/-- The work-kind display name (visualizer_tool.c, lines 79-86): the chain
of equality tests on `work_type`, defaulting to "unknown". -/
def work_type_str (w : ℕ) : String :=
  if w = ompt_work_loop then "loop"
  else if w = ompt_work_sections then "sections"
  else if w = ompt_work_single_executor then "single"
  else if w = ompt_work_single_other then "single_other"
  else if w = ompt_work_workshare then "workshare"
  else if w = ompt_work_distribute then "distribute"
  else if w = ompt_work_taskloop then "taskloop"
  else "unknown"

/-- The work direction label (visualizer_tool.c, line 88):
`(endpoint == ompt_scope_begin) ? "START" : "END"`. -/
def work_event_type (e : ℕ) : String :=
  if e = ompt_scope_begin then "START" else "END"

/-- The line printed by `on_ompt_callback_work`
(visualizer_tool.c, lines 90-91). -/
def work_line (tid : ℤ) (e : ℕ) (ts : ℚ) (w : ℕ) (count : ℕ) : String :=
  "[OMPT] Thread " ++ toString tid ++ " WORK " ++ work_event_type e ++
    " at " ++ fmt3 (ts / 1000) ++ " ms (type: " ++ work_type_str w ++
    ", count: " ++ toString count ++ ")"

/-- `on_ompt_callback_work` (visualizer_tool.c, lines 68-92). -/
def on_ompt_callback_work (w e : ℕ) (ts : ℚ) (tid : ℤ) (count : ℕ) : HandlerOut :=
  { lines := [work_line tid e ts w count], tsQueries := 1 }

/-- The implicit-task direction label (visualizer_tool.c, line 115):
`(endpoint == ompt_scope_begin) ? "TASK START" : "TASK FINISH"`. -/
def implicit_event_type (e : ℕ) : String :=
  if e = ompt_scope_begin then "TASK START" else "TASK FINISH"

/-- The line printed by `on_ompt_callback_implicit_task`
(visualizer_tool.c, lines 117-118). -/
def implicit_task_line (tid : ℤ) (e : ℕ) (ts : ℚ) (team_size : ℕ) : String :=
  "[OMPT] Thread " ++ toString tid ++ " " ++ implicit_event_type e ++
    " at " ++ fmt3 (ts / 1000) ++ " ms (team size: " ++ toString team_size ++ ")"

/-- `on_ompt_callback_implicit_task` (visualizer_tool.c, lines 104-119). -/
def on_ompt_callback_implicit_task (e : ℕ) (ts : ℚ) (tid : ℤ)
    (team_size : ℕ) : HandlerOut :=
  { lines := [implicit_task_line tid e ts team_size], tsQueries := 1 }

/-- The sync-region display name (visualizer_tool.c, lines 140-147),
defaulting to "unknown". -/
def sync_type_str (k : ℕ) : String :=
  if k = ompt_sync_region_barrier then "barrier"
  else if k = ompt_sync_region_barrier_implicit then "implicit_barrier"
  else if k = ompt_sync_region_barrier_explicit then "explicit_barrier"
  else if k = ompt_sync_region_barrier_implementation then "implementation_barrier"
  else if k = ompt_sync_region_taskwait then "taskwait"
  else if k = ompt_sync_region_taskgroup then "taskgroup"
  else if k = ompt_sync_region_reduction then "reduction"
  else "unknown"

/-- The sync direction label (visualizer_tool.c, line 149):
`(endpoint == ompt_scope_begin) ? "ENTER" : "EXIT"`. -/
def sync_event_type (e : ℕ) : String :=
  if e = ompt_scope_begin then "ENTER" else "EXIT"

/-- The line printed by `on_ompt_callback_sync_region`
(visualizer_tool.c, lines 151-152): direction, then kind. -/
def sync_line (tid : ℤ) (e k : ℕ) (ts : ℚ) : String :=
  "[OMPT] Thread " ++ toString tid ++ " " ++ sync_event_type e ++ " " ++
    sync_type_str k ++ " at " ++ fmt3 (ts / 1000) ++ " ms"

/-- `on_ompt_callback_sync_region` (visualizer_tool.c, lines 130-153). -/
def on_ompt_callback_sync_region (k e : ℕ) (ts : ℚ) (tid : ℤ) : HandlerOut :=
  { lines := [sync_line tid e k ts], tsQueries := 1 }

/-- The five OMPT callback kinds the initializer registers. -/
inductive OmptCallback where
  | parallel_begin
  | parallel_end
  | work
  | implicit_task
  | sync_region
deriving DecidableEq

/-- Observable effect of `initializer`: lines printed, callbacks registered
with the host (in registration order), and the return value. -/
structure InitOut where
  lines : List String
  registered : List OmptCallback
  ret : ℤ
deriving DecidableEq

/-- `initializer` (visualizer_tool.c, lines 163-202).  `lookup_ok` is
whether the host's lookup resolved "ompt_set_callback" to a non-NULL
function pointer. -/
def initializer (lookup_ok : Bool) : InitOut :=
  if lookup_ok then
    { lines := ["OMPT Tool Initialized", "OMPT callbacks registered successfully"],
      registered := [OmptCallback.parallel_begin, OmptCallback.parallel_end,
        OmptCallback.work, OmptCallback.implicit_task, OmptCallback.sync_region],
      ret := 1 }
  else
    { lines := ["OMPT Tool Initialized", "Warning: Could not register OMPT callbacks"],
      registered := [],
      ret := 1 }

/-- One call to `ompt_annotate`: the environment at that moment, the clock
value, the thread id and the label. -/
structure AnnCall where
  env : Env
  ts : ℚ
  tid : ℤ
  ann : String

/-- Run a sequence of `ompt_annotate` calls, threading the globals, and
collect the printed lines and the total number of `check_ompt_loaded`
(getenv) executions. -/
def runAnnotateCalls : List AnnCall → UtilsState → List String × ℕ × UtilsState
  | [], s => ([], 0, s)
  | c :: rest, s =>
    let r := ompt_annotate c.env c.ts c.tid c.ann s
    let t := runAnnotateCalls rest r.state
    (r.lines ++ t.1, r.envChecks + t.2.1, t.2.2)

/-- Substring containment: `pat` occurs contiguously inside `s`. -/
def strContains (s pat : String) : Prop :=
  ∃ a b : String, s = a ++ pat ++ b

/-- The list of work-kind values `on_ompt_callback_work` recognizes. -/
def recognizedWorkKinds : List ℕ :=
  [ompt_work_loop, ompt_work_sections, ompt_work_single_executor,
   ompt_work_single_other, ompt_work_workshare, ompt_work_distribute,
   ompt_work_taskloop]

/-- The list of sync-kind values `on_ompt_callback_sync_region` recognizes. -/
def recognizedSyncKinds : List ℕ :=
  [ompt_sync_region_barrier, ompt_sync_region_barrier_implicit,
   ompt_sync_region_barrier_explicit, ompt_sync_region_barrier_implementation,
   ompt_sync_region_taskwait, ompt_sync_region_taskgroup,
   ompt_sync_region_reduction]

/-- Modelled from the spec (section 6, output format): the record shape
`[PREFIX] Thread <id> <EVENT> at <timestamp> ms<attributes>`, the timestamp
being the microsecond clock value divided by 1000 and printed with a
fractional part.  Used only to compare the code's six line builders against
the spec's stated format. -/
def specLineShape (pre : String) (tid : ℤ) (event : String) (ts : ℚ)
    (attrs : String) : String :=
  pre ++ " Thread " ++ toString tid ++ " " ++ event ++ " at " ++
    fmt3 (ts / 1000) ++ " ms" ++ attrs

/-! Helper lemmas about substring containment. -/

lemma strContains_self (p : String) : strContains p p :=
  ⟨"", "", by apply String.ext; simp [String.data_append]⟩

lemma strContains_appl {s p : String} (t : String) (h : strContains s p) :
    strContains (s ++ t) p := by
  obtain ⟨a, b, rfl⟩ := h
  exact ⟨a, b ++ t, by simp [String.append_assoc]⟩

lemma strContains_appr {s p : String} (t : String) (h : strContains s p) :
    strContains (t ++ s) p := by
  obtain ⟨a, b, rfl⟩ := h
  exact ⟨t ++ a, b, by simp [String.append_assoc]⟩

lemma exists_tail_appl {s p : String} (t : String) (h : ∃ r, s = p ++ r) :
    ∃ r, s ++ t = p ++ r := by
  obtain ⟨r, rfl⟩ := h
  exact ⟨r ++ t, by simp [String.append_assoc]⟩

end OmpViz

namespace OmpViz

/-- C6: `check_ompt_loaded` reports enabled exactly when OMP_TOOL_LIBRARIES
is present in the environment at the time of the check; the variable's
value is ignored (two environments agreeing on presence agree on the
result), and absence simply yields `false` rather than an error. -/
theorem check_ompt_loaded_presence (env env2 : Env)
    (h : (env "OMP_TOOL_LIBRARIES").isSome = (env2 "OMP_TOOL_LIBRARIES").isSome) :
    (check_ompt_loaded env = true ↔ (env "OMP_TOOL_LIBRARIES").isSome = true) ∧
    check_ompt_loaded env = check_ompt_loaded env2 := by
  unfold check_ompt_loaded
  exact ⟨Iff.rfl, h⟩

/-- Witness for C6 at two concrete environments that agree on presence but
not on the variable's value. -/
theorem check_ompt_loaded_presence_witness :
    (check_ompt_loaded (fun _ => some "libvisualizer.so") = true ↔
      (((fun _ => some "libvisualizer.so") : Env) "OMP_TOOL_LIBRARIES").isSome = true) ∧
    check_ompt_loaded (fun _ => some "libvisualizer.so") =
      check_ompt_loaded (fun _ => some "other-value") :=
  check_ompt_loaded_presence (fun _ => some "libvisualizer.so")
    (fun _ => some "other-value") rfl

/-- C4: `initializer` always returns 1 (the "stay attached" status); when
the lookup of ompt_set_callback fails it registers no callbacks and prints
the warning line, but still returns 1 and does not fail. -/
theorem initializer_lookup_failure (b : Bool) :
    (initializer b).ret = 1 ∧
    (b = false →
      (initializer b).registered = [] ∧
      "Warning: Could not register OMPT callbacks" ∈ (initializer b).lines) := by
  cases b <;> simp [initializer]

/-- Witness for C4 at the failed-lookup input. -/
theorem initializer_lookup_failure_witness :
    (initializer false).registered = [] ∧
    "Warning: Could not register OMPT callbacks" ∈ (initializer false).lines :=
  (initializer_lookup_failure false).2 rfl

/-- C10: the begin/end direction in the work, implicit-task and sync-region
handlers is decided solely by comparison with ompt_scope_begin: equal gives
the begin labels, and every other value (not only ompt_scope_end) gives the
end labels; no "unknown" fallback exists for the endpoint. -/
theorem endpoint_dichotomy (e : ℕ) :
    (e = ompt_scope_begin →
      work_event_type e = "START" ∧ implicit_event_type e = "TASK START" ∧
      sync_event_type e = "ENTER") ∧
    (e ≠ ompt_scope_begin →
      work_event_type e = "END" ∧ implicit_event_type e = "TASK FINISH" ∧
      sync_event_type e = "EXIT") := by
  constructor <;> intro h <;>
    simp [work_event_type, implicit_event_type, sync_event_type, h]

/-- Witness for C10 at endpoint value 3, which is neither ompt_scope_begin
nor ompt_scope_end and still receives the end labels. -/
theorem endpoint_dichotomy_witness :
    work_event_type 3 = "END" ∧ implicit_event_type 3 = "TASK FINISH" ∧
    sync_event_type 3 = "EXIT" :=
  (endpoint_dichotomy 3).2 (by decide)

/-- C5: each recognized work-kind and sync-kind maps to its display name;
every value outside the recognized lists maps to "unknown", and the two
handlers still emit their one record, the "unknown" label appearing in it
(no failure path exists: both mappings are total). -/
theorem unknown_kind_fallback (w k e : ℕ) (ts : ℚ) (tid : ℤ) (count : ℕ)
    (hw : w ∉ recognizedWorkKinds) (hk : k ∉ recognizedSyncKinds) :
    work_type_str ompt_work_loop = "loop" ∧
    work_type_str ompt_work_sections = "sections" ∧
    work_type_str ompt_work_single_executor = "single" ∧
    work_type_str ompt_work_single_other = "single_other" ∧
    work_type_str ompt_work_workshare = "workshare" ∧
    work_type_str ompt_work_distribute = "distribute" ∧
    work_type_str ompt_work_taskloop = "taskloop" ∧
    sync_type_str ompt_sync_region_barrier = "barrier" ∧
    sync_type_str ompt_sync_region_barrier_implicit = "implicit_barrier" ∧
    sync_type_str ompt_sync_region_barrier_explicit = "explicit_barrier" ∧
    sync_type_str ompt_sync_region_barrier_implementation = "implementation_barrier" ∧
    sync_type_str ompt_sync_region_taskwait = "taskwait" ∧
    sync_type_str ompt_sync_region_taskgroup = "taskgroup" ∧
    sync_type_str ompt_sync_region_reduction = "reduction" ∧
    work_type_str w = "unknown" ∧
    sync_type_str k = "unknown" ∧
    (on_ompt_callback_work w e ts tid count).lines =
      [work_line tid e ts w count] ∧
    strContains (work_line tid e ts w count) "unknown" ∧
    (on_ompt_callback_sync_region k e ts tid).lines = [sync_line tid e k ts] ∧
    strContains (sync_line tid e k ts) "unknown" := by
  simp only [recognizedWorkKinds, recognizedSyncKinds, List.mem_cons,
    List.not_mem_nil, or_false, not_or] at hw hk
  obtain ⟨w1, w2, w3, w4, w5, w6, w7⟩ := hw
  obtain ⟨k1, k2, k3, k4, k5, k6, k7⟩ := hk
  have hws : work_type_str w = "unknown" := by
    simp [work_type_str, w1, w2, w3, w4, w5, w6, w7]
  have hks : sync_type_str k = "unknown" := by
    simp [sync_type_str, k1, k2, k3, k4, k5, k6, k7]
  refine ⟨by rfl, by rfl, by rfl, by rfl, by rfl, by rfl, by rfl,
    by rfl, by rfl, by rfl, by rfl, by rfl, by rfl, by rfl,
    hws, hks, rfl, ?_, rfl, ?_⟩
  · unfold work_line
    rw [hws]
    exact strContains_appl _ (strContains_appl _ (strContains_appl _
      (strContains_appr _ (strContains_self _))))
  · unfold sync_line
    rw [hks]
    exact strContains_appl _ (strContains_appl _ (strContains_appl _
      (strContains_appr _ (strContains_self _))))

/-- Witness for C5 at the unrecognized kinds 42 and 99. -/
theorem unknown_kind_fallback_witness :
    work_type_str ompt_work_loop = "loop" ∧
    work_type_str ompt_work_sections = "sections" ∧
    work_type_str ompt_work_single_executor = "single" ∧
    work_type_str ompt_work_single_other = "single_other" ∧
    work_type_str ompt_work_workshare = "workshare" ∧
    work_type_str ompt_work_distribute = "distribute" ∧
    work_type_str ompt_work_taskloop = "taskloop" ∧
    sync_type_str ompt_sync_region_barrier = "barrier" ∧
    sync_type_str ompt_sync_region_barrier_implicit = "implicit_barrier" ∧
    sync_type_str ompt_sync_region_barrier_explicit = "explicit_barrier" ∧
    sync_type_str ompt_sync_region_barrier_implementation = "implementation_barrier" ∧
    sync_type_str ompt_sync_region_taskwait = "taskwait" ∧
    sync_type_str ompt_sync_region_taskgroup = "taskgroup" ∧
    sync_type_str ompt_sync_region_reduction = "reduction" ∧
    work_type_str 42 = "unknown" ∧
    sync_type_str 99 = "unknown" ∧
    (on_ompt_callback_work 42 1 0 0 10).lines = [work_line 0 1 0 42 10] ∧
    strContains (work_line 0 1 0 42 10) "unknown" ∧
    (on_ompt_callback_sync_region 99 1 0 0).lines = [sync_line 0 1 99 0] ∧
    strContains (sync_line 0 1 99 0) "unknown" :=
  unknown_kind_fallback 42 99 1 0 0 10 (by decide) (by decide)

/-- C3: over any sequence of clock readings that a monotonic clock can
produce (nanoseconds below one second, readings never going backwards),
the values `get_timestamp` computes are non-decreasing; and the unit of the
returned value is the microsecond: a reading of s whole seconds maps to
1000000 * s. -/
theorem get_timestamp_monotone (r : ℕ → Timespec)
    (hv : ∀ n, (r n).valid) (hm : ∀ n, clockLe (r n) (r (n + 1)))
    (n s : ℕ) :
    get_timestamp (r n) ≤ get_timestamp (r (n + 1)) ∧
    get_timestamp ⟨s, 0⟩ = 1000000 * s := by
  constructor
  · rcases hm n with h | ⟨hs, hn⟩
    · have h1 : ((r n).tv_sec : ℚ) + 1 ≤ (r (n + 1)).tv_sec := by
        exact_mod_cast h
      have h2 : ((r n).tv_nsec : ℚ) < 1000000000 := by
        exact_mod_cast hv n
      have h3 : (0 : ℚ) ≤ ((r (n + 1)).tv_nsec : ℚ) := by positivity
      unfold get_timestamp
      linarith
    · unfold get_timestamp
      rw [hs]
      have hn2 : ((r n).tv_nsec : ℚ) ≤ ((r (n + 1)).tv_nsec : ℚ) := by
        exact_mod_cast hn
      linarith
  · unfold get_timestamp
    push_cast
    ring

/-- Witness for C3 on the concrete reading sequence n ↦ ⟨n, 500⟩. -/
theorem get_timestamp_monotone_witness :
    get_timestamp ⟨3, 500⟩ ≤ get_timestamp ⟨4, 500⟩ ∧
    get_timestamp ⟨7, 0⟩ = 1000000 * 7 :=
  get_timestamp_monotone (fun j => ⟨j, 500⟩)
    (fun _ => by norm_num [Timespec.valid])
    (fun j => Or.inl (by simp)) 3 7

/-- Once `first_call` is false, `ompt_annotate` neither runs the
environment check again nor touches the globals. -/
lemma ompt_annotate_latched (env : Env) (ts : ℚ) (tid : ℤ) (ann : String)
    (s : UtilsState) (h : s.first_call = false) :
    (ompt_annotate env ts tid ann s).state = s ∧
    (ompt_annotate env ts tid ann s).envChecks = 0 := by
  unfold ompt_annotate
  rw [h]
  simp only [if_false, Bool.false_eq_true]
  split <;> simp

/-- Unfolding equation for `runAnnotateCalls` on a nonempty call list. -/
lemma runAnnotateCalls_cons (c : AnnCall) (rest : List AnnCall) (s : UtilsState) :
    runAnnotateCalls (c :: rest) s =
      ((ompt_annotate c.env c.ts c.tid c.ann s).lines ++
        (runAnnotateCalls rest (ompt_annotate c.env c.ts c.tid c.ann s).state).1,
       (ompt_annotate c.env c.ts c.tid c.ann s).envChecks +
        (runAnnotateCalls rest (ompt_annotate c.env c.ts c.tid c.ann s).state).2.1,
       (runAnnotateCalls rest (ompt_annotate c.env c.ts c.tid c.ann s).state).2.2) :=
  rfl

/-- Running any sequence of annotate calls from a latched state performs no
environment check and leaves the globals unchanged. -/
lemma runAnnotateCalls_latched (calls : List AnnCall) (s : UtilsState)
    (h : s.first_call = false) :
    (runAnnotateCalls calls s).2.2 = s ∧ (runAnnotateCalls calls s).2.1 = 0 := by
  induction calls generalizing s with
  | nil => exact ⟨rfl, rfl⟩
  | cons c rest ih =>
    have hc := ompt_annotate_latched c.env c.ts c.tid c.ann s h
    have hrest := ih (ompt_annotate c.env c.ts c.tid c.ann s).state
      (by rw [hc.1]; exact h)
    rw [runAnnotateCalls_cons]
    exact ⟨hrest.1.trans hc.1, by simp [hc.2, hrest.2]⟩

/-- The first `ompt_annotate` call of a process performs exactly one
environment check and leaves the globals latched to its result. -/
lemma ompt_annotate_first (env : Env) (ts : ℚ) (tid : ℤ) (ann : String) :
    (ompt_annotate env ts tid ann initState).state =
      { ompt_loaded := check_ompt_loaded env, first_call := false } ∧
    (ompt_annotate env ts tid ann initState).envChecks = 1 := by
  unfold ompt_annotate initState
  simp only [if_true]
  split <;> simp

/-- C2: over any run of annotate calls starting at the program's initial
globals, the environment inspection `check_ompt_loaded` executes exactly
once in total, namely during the first call; the final `ompt_loaded` equals
the presence of OMP_TOOL_LIBRARIES in the environment of that first call,
no matter what the environments of all later calls look like (the variable
may appear or disappear mid-run without effect), and `first_call` stays
latched to false. -/
theorem activation_latch (c : AnnCall) (calls : List AnnCall) :
    (ompt_annotate c.env c.ts c.tid c.ann initState).envChecks = 1 ∧
    (runAnnotateCalls (c :: calls) initState).2.1 = 1 ∧
    (runAnnotateCalls (c :: calls) initState).2.2 =
      { ompt_loaded := check_ompt_loaded c.env, first_call := false } := by
  have hfirst := ompt_annotate_first c.env c.ts c.tid c.ann
  have hrest := runAnnotateCalls_latched calls
    (ompt_annotate c.env c.ts c.tid c.ann initState).state
    (by rw [hfirst.1])
  refine ⟨hfirst.2, ?_, ?_⟩
  · show (ompt_annotate c.env c.ts c.tid c.ann initState).envChecks +
      (runAnnotateCalls calls
        (ompt_annotate c.env c.ts c.tid c.ann initState).state).2.1 = 1
    rw [hfirst.2, hrest.2]
  · show (runAnnotateCalls calls
      (ompt_annotate c.env c.ts c.tid c.ann initState).state).2.2 = _
    rw [hrest.1, hfirst.1]

/-- C1 counterexample: the lifecycle handlers of visualizer_tool.c never
consult the activation state at all (their code reads no global), so
invoking any of them while activation is disabled still emits one line and
performs one timestamp query, refuting the claimed zero-output,
zero-timestamp behavior for the lifecycle handlers. -/
theorem lifecycle_emits_regardless :
    (on_ompt_callback_parallel_begin 1000 2 4).lines.length = 1 ∧
    (on_ompt_callback_parallel_begin 1000 2 4).tsQueries = 1 ∧
    (on_ompt_callback_parallel_end 1000 2).lines.length = 1 ∧
    (on_ompt_callback_parallel_end 1000 2).tsQueries = 1 ∧
    (on_ompt_callback_work 1 1 1000 2 10).lines.length = 1 ∧
    (on_ompt_callback_work 1 1 1000 2 10).tsQueries = 1 ∧
    (on_ompt_callback_implicit_task 1 1000 2 4).lines.length = 1 ∧
    (on_ompt_callback_implicit_task 1 1000 2 4).tsQueries = 1 ∧
    (on_ompt_callback_sync_region 1 1 1000 2).lines.length = 1 ∧
    (on_ompt_callback_sync_region 1 1 1000 2).tsQueries = 1 :=
  ⟨rfl, rfl, rfl, rfl, rfl, rfl, rfl, rfl, rfl, rfl⟩

/-- C1 amended: only the annotation primitive checks activation.  If the
activation state resolves to disabled at a call (the variable is absent at
a first call, or the latched state is disabled), `ompt_annotate` emits
nothing and performs zero timestamp queries; the five lifecycle handlers do
not consult the activation state and always emit exactly one line with
exactly one timestamp query. -/
theorem disabled_annotate_noop (env : Env) (ts : ℚ) (tid : ℤ) (ann : String)
    (s : UtilsState) (req w e k count team_size : ℕ)
    (h : (if s.first_call then check_ompt_loaded env else s.ompt_loaded) = false) :
    (ompt_annotate env ts tid ann s).lines = [] ∧
    (ompt_annotate env ts tid ann s).tsQueries = 0 ∧
    (on_ompt_callback_parallel_begin ts tid req).lines.length = 1 ∧
    (on_ompt_callback_parallel_begin ts tid req).tsQueries = 1 ∧
    (on_ompt_callback_parallel_end ts tid).lines.length = 1 ∧
    (on_ompt_callback_parallel_end ts tid).tsQueries = 1 ∧
    (on_ompt_callback_work w e ts tid count).lines.length = 1 ∧
    (on_ompt_callback_work w e ts tid count).tsQueries = 1 ∧
    (on_ompt_callback_implicit_task e ts tid team_size).lines.length = 1 ∧
    (on_ompt_callback_implicit_task e ts tid team_size).tsQueries = 1 ∧
    (on_ompt_callback_sync_region k e ts tid).lines.length = 1 ∧
    (on_ompt_callback_sync_region k e ts tid).tsQueries = 1 := by
  refine ⟨?_, ?_, rfl, rfl, rfl, rfl, rfl, rfl, rfl, rfl, rfl, rfl⟩ <;>
  · unfold ompt_annotate
    split at h
    case isTrue hf => simp [hf, h]
    case isFalse hf => simp [hf, h]

/-- Witness for the amended C1 at a concrete disabled configuration: the
variable is absent at a first call. -/
theorem disabled_annotate_noop_witness :
    (ompt_annotate (fun _ => none) 1000 2 "probe" initState).lines = [] ∧
    (ompt_annotate (fun _ => none) 1000 2 "probe" initState).tsQueries = 0 ∧
    (on_ompt_callback_parallel_begin 1000 2 8).lines.length = 1 ∧
    (on_ompt_callback_parallel_begin 1000 2 8).tsQueries = 1 ∧
    (on_ompt_callback_parallel_end 1000 2).lines.length = 1 ∧
    (on_ompt_callback_parallel_end 1000 2).tsQueries = 1 ∧
    (on_ompt_callback_work 3 1 1000 2 10).lines.length = 1 ∧
    (on_ompt_callback_work 3 1 1000 2 10).tsQueries = 1 ∧
    (on_ompt_callback_implicit_task 1 1000 2 4).lines.length = 1 ∧
    (on_ompt_callback_implicit_task 1 1000 2 4).tsQueries = 1 ∧
    (on_ompt_callback_sync_region 2 1 1000 2).lines.length = 1 ∧
    (on_ompt_callback_sync_region 2 1 1000 2).tsQueries = 1 :=
  disabled_annotate_noop (fun _ => none) 1000 2 "probe" initState 8 3 1 2 10 4
    (by rfl)

/-- C7: with requested parallelism 4 on worker 2, the parallel-begin
handler emits exactly one line; that line contains the substring
"PARALLEL BEGIN", contains the substring "4", and its worker-id field is
"2" (the line starts with "[OMPT] Thread 2 ").  The handler reads no
activation state, so this holds in particular whenever the tool is active. -/
theorem parallel_begin_record (ts : ℚ) :
    (on_ompt_callback_parallel_begin ts 2 4).lines = [parallel_begin_line 2 ts 4] ∧
    strContains (parallel_begin_line 2 ts 4) "PARALLEL BEGIN" ∧
    strContains (parallel_begin_line 2 ts 4) "4" ∧
    (∃ r, parallel_begin_line 2 ts 4 = "[OMPT] Thread 2 " ++ r) := by
  refine ⟨rfl, ?_, ?_, ?_⟩
  · unfold parallel_begin_line
    exact strContains_appl _ (strContains_appl _ (strContains_appl _
      (strContains_appl _ (strContains_appr _ ⟨" ", " at ", by decide⟩))))
  · unfold parallel_begin_line
    exact strContains_appl _ (strContains_appr _ ⟨"", "", by decide⟩)
  · unfold parallel_begin_line
    exact exists_tail_appl _ (exists_tail_appl _ (exists_tail_appl _
      (exists_tail_appl _ ⟨"PARALLEL BEGIN at ", by decide⟩)))

/-- C8: with activation latched enabled, `ompt_annotate` emits exactly one
line and one timestamp query; the label is carried through unmodified as
the literal tail of the line (no escaping), the line carries the
millisecond timestamp (the microsecond value divided by 1000) which always
has a point, hence a fractional component; `ompt_mark_roi_start` is the
same call with label "ROI_START" and its line contains that literal. -/
theorem annotate_enabled_record (env : Env) (ts : ℚ) (tid : ℤ) (ann : String)
    (s : UtilsState) (hf : s.first_call = false) (hl : s.ompt_loaded = true) :
    (ompt_annotate env ts tid ann s).lines = [annotateLine tid ts ann] ∧
    (ompt_annotate env ts tid ann s).tsQueries = 1 ∧
    (∃ a, annotateLine tid ts ann = a ++ ann) ∧
    strContains (annotateLine tid ts ann) (fmt3 (ts / 1000) ++ " ms") ∧
    strContains (fmt3 (ts / 1000)) "." ∧
    (ompt_mark_roi_start env ts tid s).lines = [annotateLine tid ts "ROI_START"] ∧
    strContains (annotateLine tid ts "ROI_START") "ROI_START" := by
  refine ⟨?_, ?_, ?_, ?_, ?_, ?_, ?_⟩
  · unfold ompt_annotate
    simp [hf, hl]
  · unfold ompt_annotate
    simp [hf, hl]
  · exact ⟨_, rfl⟩
  · refine ⟨"[OMPT_annotation] Thread " ++ toString tid ++ " Annotation at ",
      ": " ++ ann, ?_⟩
    apply String.ext
    have d : (" ms: " : String).data = " ms".data ++ ": ".data := by decide
    simp [annotateLine, String.data_append, d, List.append_assoc]
  · exact ⟨_, _, rfl⟩
  · unfold ompt_mark_roi_start ompt_annotate
    simp [hf, hl]
  · unfold annotateLine
    exact strContains_appr _ (strContains_self _)

/-- Witness for C8 at a concrete enabled state and label. -/
theorem annotate_enabled_record_witness :
    (ompt_annotate (fun _ => some "lib") 2500 2 "hello"
        { ompt_loaded := true, first_call := false }).lines =
      [annotateLine 2 2500 "hello"] ∧
    (ompt_annotate (fun _ => some "lib") 2500 2 "hello"
        { ompt_loaded := true, first_call := false }).tsQueries = 1 ∧
    (∃ a, annotateLine 2 2500 "hello" = a ++ "hello") ∧
    strContains (annotateLine 2 2500 "hello") (fmt3 (2500 / 1000) ++ " ms") ∧
    strContains (fmt3 (2500 / 1000)) "." ∧
    (ompt_mark_roi_start (fun _ => some "lib") 2500 2
        { ompt_loaded := true, first_call := false }).lines =
      [annotateLine 2 2500 "ROI_START"] ∧
    strContains (annotateLine 2 2500 "ROI_START") "ROI_START" :=
  annotate_enabled_record (fun _ => some "lib") 2500 2 "hello"
    { ompt_loaded := true, first_call := false } rfl rfl

/-- C9: every record the six emitters produce matches the spec's single-line
shape "[PREFIX] Thread <id> <EVENT> at <timestamp> ms" followed by the
event-specific attribute suffix (empty for parallel-end and sync records,
": <label>" for annotations): `specLineShape` is the spec's format, the
prefix is "[OMPT]" for the five lifecycle handlers and "[OMPT_annotation]"
for annotations, the printed timestamp is the microsecond value divided by
1000 and always carries a point (a millisecond fraction), and the sync
EVENT field names the direction ("ENTER"/"EXIT") together with the
region-kind name. -/
theorem record_format (tid : ℤ) (ts : ℚ) (req w e k count team_size : ℕ)
    (ann : String) :
    parallel_begin_line tid ts req =
      specLineShape "[OMPT]" tid "PARALLEL BEGIN" ts
        (" (requested threads: " ++ toString req ++ ")") ∧
    parallel_end_line tid ts = specLineShape "[OMPT]" tid "PARALLEL END" ts "" ∧
    work_line tid e ts w count =
      specLineShape "[OMPT]" tid ("WORK " ++ work_event_type e) ts
        (" (type: " ++ work_type_str w ++ ", count: " ++ toString count ++ ")") ∧
    implicit_task_line tid e ts team_size =
      specLineShape "[OMPT]" tid (implicit_event_type e) ts
        (" (team size: " ++ toString team_size ++ ")") ∧
    sync_line tid e k ts =
      specLineShape "[OMPT]" tid (sync_event_type e ++ " " ++ sync_type_str k) ts "" ∧
    annotateLine tid ts ann =
      specLineShape "[OMPT_annotation]" tid "Annotation" ts (": " ++ ann) ∧
    strContains (fmt3 (ts / 1000)) "." := by
  have d1 : ("[OMPT] Thread " : String).data =
      "[OMPT]".data ++ " Thread ".data := by decide
  have d2 : ("[OMPT_annotation] Thread " : String).data =
      "[OMPT_annotation]".data ++ " Thread ".data := by decide
  have d3 : (" PARALLEL BEGIN at " : String).data =
      " ".data ++ "PARALLEL BEGIN".data ++ " at ".data := by decide
  have d4 : (" PARALLEL END at " : String).data =
      " ".data ++ "PARALLEL END".data ++ " at ".data := by decide
  have d5 : (" WORK " : String).data = " ".data ++ "WORK ".data := by decide
  have d6 : (" ms (requested threads: " : String).data =
      " ms".data ++ " (requested threads: ".data := by decide
  have d7 : (" ms (type: " : String).data =
      " ms".data ++ " (type: ".data := by decide
  have d8 : (" ms (team size: " : String).data =
      " ms".data ++ " (team size: ".data := by decide
  have d9 : (" Annotation at " : String).data =
      " ".data ++ "Annotation".data ++ " at ".data := by decide
  have d10 : (" ms: " : String).data = " ms".data ++ ": ".data := by decide
  refine ⟨?_, ?_, ?_, ?_, ?_, ?_, ⟨_, _, rfl⟩⟩
  · apply String.ext
    simp [parallel_begin_line, specLineShape, String.data_append, d1, d3, d6,
      List.append_assoc]
  · apply String.ext
    simp [parallel_end_line, specLineShape, String.data_append, d1, d4,
      List.append_assoc]
  · apply String.ext
    simp [work_line, specLineShape, String.data_append, d1, d5, d7,
      List.append_assoc]
  · apply String.ext
    simp [implicit_task_line, specLineShape, String.data_append, d1, d8,
      List.append_assoc]
  · apply String.ext
    simp [sync_line, specLineShape, String.data_append, d1, List.append_assoc]
  · apply String.ext
    simp [annotateLine, specLineShape, String.data_append, d2, d9, d10,
      List.append_assoc]

end OmpViz

